import Mathlib

/-!
Verification of `include/gpd/util/system_print_color.h`.

The header is a set of C preprocessor macros that compose ANSI SGR escape
sequences around payload strings and print the result to standard output.
Each macro is embedded as a Lean function on `String`:

* the code-table macros (`BOLD`, `FGRED`, ...) become string constants;
* `MOD(x)`, `RST` and the eight style-composition macros (`B_MOD_*`,
  `MOD_*`) become pure functions, mirroring C adjacent-literal
  concatenation as `String.append`;
* each `PRINT_*` macro is embedded as the exact byte sequence it writes to
  standard output (`std::endl` contributes the single byte `'\n'`);
* the variadic fragment chain `PRINT_X(a << b << ...)` is embedded as a
  left fold of stream insertions over an output buffer.

The spec-level operations `escape`, `styled` and `printLine`, which the
header exposes only in specialized macro form, are modelled from the spec
over the source's code table.
-/

namespace GPD

/-- `#define BOLD "1"` from the source code table. -/
def BOLD : String := "1"

/-- `#define UNDRL "4"` from the source code table. -/
def UNDRL : String := "4"

/-- `#define FGRED "31"` from the source code table. -/
def FGRED : String := "31"

/-- `#define FGGREEN "32"` from the source code table. -/
def FGGREEN : String := "32"

/-- `#define FGYELLOW "33"` from the source code table. -/
def FGYELLOW : String := "33"

/-- `#define FGBLUE "34"` from the source code table. -/
def FGBLUE : String := "34"

/-- `#define FGDEFAULT "39"` from the source code table. -/
def FGDEFAULT : String := "39"

/-- `#define BGRED "41"` from the source code table. -/
def BGRED : String := "41"

/-- `#define BGGREEN "42"` from the source code table. -/
def BGGREEN : String := "42"

/-- `#define BGYELLOW "43"` from the source code table. -/
def BGYELLOW : String := "43"

/-- `#define BGBLUE "44"` from the source code table. -/
def BGBLUE : String := "44"

/-- `#define BGDEFAULT "49"` from the source code table. -/
def BGDEFAULT : String := "49"

/-- `#define MOD(x) "\033[" x "m"`: wrap a numeric code string into an
ANSI escape sequence. `\033` is the ESC byte 0x1B. -/
def MOD (x : String) : String := "\x1b[" ++ x ++ "m"

/-- `#define RST MOD("0")`: the reset escape sequence. -/
def RST : String := MOD "0"

/-- `#define B_MOD_RED(x) MOD(BOLD) MOD(FGRED) x RST`. -/
def B_MOD_RED (x : String) : String := MOD BOLD ++ MOD FGRED ++ x ++ RST

/-- `#define B_MOD_GREEN(x) MOD(BOLD) MOD(FGGREEN) x RST`. -/
def B_MOD_GREEN (x : String) : String := MOD BOLD ++ MOD FGGREEN ++ x ++ RST

/-- `#define B_MOD_YELLOW(x) MOD(BOLD) MOD(FGYELLOW) x RST`. -/
def B_MOD_YELLOW (x : String) : String := MOD BOLD ++ MOD FGYELLOW ++ x ++ RST

/-- `#define B_MOD_BLUE(x) MOD(BOLD) MOD(FGBLUE) x RST`. -/
def B_MOD_BLUE (x : String) : String := MOD BOLD ++ MOD FGBLUE ++ x ++ RST

/-- `#define MOD_RED(x) MOD(FGRED) x RST`. -/
def MOD_RED (x : String) : String := MOD FGRED ++ x ++ RST

/-- `#define MOD_GREEN(x) MOD(FGGREEN) x RST`. -/
def MOD_GREEN (x : String) : String := MOD FGGREEN ++ x ++ RST

/-- `#define MOD_YELLOW(x) MOD(FGYELLOW) x RST`. -/
def MOD_YELLOW (x : String) : String := MOD FGYELLOW ++ x ++ RST

/-- `#define MOD_BLUE(x) MOD(FGBLUE) x RST`. -/
def MOD_BLUE (x : String) : String := MOD FGBLUE ++ x ++ RST

/-- `#define PRINT_BRED(...) {std::cout<<B_MOD_RED(__VA_ARGS__)<<std::endl;}`:
the bytes the macro writes to standard output for a single string payload. -/
def PRINT_BRED (x : String) : String := B_MOD_RED x ++ "\n"

/-- Bytes written by `PRINT_BGREEN` for a single string payload. -/
def PRINT_BGREEN (x : String) : String := B_MOD_GREEN x ++ "\n"

/-- Bytes written by `PRINT_BBLUE` for a single string payload. -/
def PRINT_BBLUE (x : String) : String := B_MOD_BLUE x ++ "\n"

/-- Bytes written by `PRINT_RED` for a single string payload. -/
def PRINT_RED (x : String) : String := MOD_RED x ++ "\n"

/-- Bytes written by `PRINT_GREEN` for a single string payload. -/
def PRINT_GREEN (x : String) : String := MOD_GREEN x ++ "\n"

/-- Bytes written by `PRINT_BLUE` for a single string payload. -/
def PRINT_BLUE (x : String) : String := MOD_BLUE x ++ "\n"

/-- `#define PRINT(...) {std::cout<<__VA_ARGS__<<std::endl;}`: bytes written
for a single string payload, no styling. -/
def PRINT (x : String) : String := x ++ "\n"

/-- The style attributes of the spec's data model, one per code macro of the
source plus `reset` (the `"0"` inside `RST`). -/
inductive StyleAttribute where
  | bold
  | underline
  | fgRed
  | fgGreen
  | fgYellow
  | fgBlue
  | fgDefault
  | bgRed
  | bgGreen
  | bgYellow
  | bgBlue
  | bgDefault
  | reset
deriving DecidableEq

/-- The numeric code string of each attribute, read off the source's
`#define` table (`reset` is the `"0"` of `RST`). -/
def code : StyleAttribute → String
  | .bold => BOLD
  | .underline => UNDRL
  | .fgRed => FGRED
  | .fgGreen => FGGREEN
  | .fgYellow => FGYELLOW
  | .fgBlue => FGBLUE
  | .fgDefault => FGDEFAULT
  | .bgRed => BGRED
  | .bgGreen => BGGREEN
  | .bgYellow => BGYELLOW
  | .bgBlue => BGBLUE
  | .bgDefault => BGDEFAULT
  | .reset => "0"

/-- `escape(a)`: the escape sequence for one attribute, the source's
`MOD` macro applied to the attribute's code. -/
def escape (a : StyleAttribute) : String := MOD (code a)

/-- Modelled from the spec: `styled(attributes, payload)` concatenates
`escape(a)` for each attribute in order, then the payload, then
`escape(Reset)`. The source exposes this operation only in the specialized
macro forms `B_MOD_*` and `MOD_*`. -/
def styled (attrs : List StyleAttribute) (payload : String) : String :=
  String.join (attrs.map escape) ++ payload ++ escape .reset

/-- Modelled from the spec: `printLine(text)` writes `text` followed by a
line terminator; the returned string is the bytes appended to standard
output (`std::endl` writes `'\n'`). -/
def printLine (text : String) : String := text ++ "\n"

/-- Modelled from the spec: `styled` viewed as a state transformer over the
standard-output byte stream. The source macro is pure string-literal
concatenation with no stream insertion, so the stream component is
returned unchanged; the result component is the composed string. -/
def styledRun (attrs : List StyleAttribute) (payload : String) (out : String) :
    String × String :=
  (out, styled attrs payload)

/-- The four foreground colors that have style-composition macros. -/
inductive Color where
  | red
  | green
  | yellow
  | blue
deriving DecidableEq, Fintype

/-- The bold style composition `B_MOD_<c>` for each color. -/
def bModOf : Color → String → String
  | .red => B_MOD_RED
  | .green => B_MOD_GREEN
  | .yellow => B_MOD_YELLOW
  | .blue => B_MOD_BLUE

/-- The unbolded style composition `MOD_<c>` for each color. -/
def modOf : Color → String → String
  | .red => MOD_RED
  | .green => MOD_GREEN
  | .yellow => MOD_YELLOW
  | .blue => MOD_BLUE

/-- The color print shorthands the source defines: `PRINT_BRED`,
`PRINT_BGREEN`, `PRINT_BBLUE`, `PRINT_RED`, `PRINT_GREEN`, `PRINT_BLUE`.
This enumeration is exhaustive over the header's `PRINT_*` color macros. -/
inductive Shorthand where
  | bred
  | bgreen
  | bblue
  | red
  | green
  | blue
deriving DecidableEq, Fintype

/-- Bytes a shorthand writes to standard output for one string payload. -/
def Shorthand.run : Shorthand → String → String
  | .bred => PRINT_BRED
  | .bgreen => PRINT_BGREEN
  | .bblue => PRINT_BBLUE
  | .red => PRINT_RED
  | .green => PRINT_GREEN
  | .blue => PRINT_BLUE

/-- Whether the shorthand's style composition starts with `MOD(BOLD)`. -/
def Shorthand.isBold : Shorthand → Bool
  | .bred | .bgreen | .bblue => true
  | .red | .green | .blue => false

/-- The color of each shorthand. -/
def Shorthand.color : Shorthand → Color
  | .bred => .red
  | .bgreen => .green
  | .bblue => .blue
  | .red => .red
  | .green => .green
  | .blue => .blue

/-- The fixed attribute sequence of each shorthand: `[Bold, color]` for the
bold variants and `[color]` for the unbolded ones. -/
def Shorthand.attrSeq : Shorthand → List StyleAttribute
  | .bred => [.bold, .fgRed]
  | .bgreen => [.bold, .fgGreen]
  | .bblue => [.bold, .fgBlue]
  | .red => [.fgRed]
  | .green => [.fgGreen]
  | .blue => [.fgBlue]

/-- The escape bytes a shorthand's macro places before the payload. -/
def Shorthand.escHead : Shorthand → String
  | .bred => MOD BOLD ++ MOD FGRED
  | .bgreen => MOD BOLD ++ MOD FGGREEN
  | .bblue => MOD BOLD ++ MOD FGBLUE
  | .red => MOD FGRED
  | .green => MOD FGGREEN
  | .blue => MOD FGBLUE

/-- A sequence of `operator<<` insertions into `std::cout`: each write
appends its bytes to the output stream. -/
def coutAll (out : String) (ws : List String) : String :=
  ws.foldl (fun o w => o ++ w) out

/-- Bytes written by a fragment-chain invocation such as
`PRINT_BGREEN("789"<<"258")`: the macro inserts the leading escape bytes,
then each fragment in order, then `RST`, then `std::endl`, into `cout`. -/
def Shorthand.runFrags (s : Shorthand) (frags : List String) (out : String) :
    String :=
  coutAll out ([s.escHead] ++ frags ++ [RST, "\n"])

/-- Left-fold concatenation of a fragment list into one payload string. -/
def concatAll (frags : List String) : String :=
  frags.foldl (fun a b => a ++ b) ""

/-- The ESC control byte 0x1B, written `\033` in the source. -/
def escChar : Char := '\x1b'

/-- Scanner state: outside any escape sequence, just after an ESC byte, or
inside the code part of an escape sequence (accumulator reversed). -/
inductive Mode where
  | text
  | sawEsc
  | inCode (acc : List Char)

/-- Scan a byte sequence and extract the code strings of all ANSI escape
sequences `ESC '[' code 'm'` it contains, in order; `none` if an ESC byte
is not part of a well-formed escape sequence. -/
def scan : List Char → Mode → Option (List String)
  | [], .text => some []
  | [], .sawEsc => none
  | [], .inCode _ => none
  | c :: rest, .text => if c = escChar then scan rest .sawEsc else scan rest .text
  | c :: rest, .sawEsc => if c = '[' then scan rest (.inCode []) else none
  | c :: rest, .inCode acc =>
      if c = 'm' then (scan rest .text).map (fun l => (String.mk acc.reverse) :: l)
      else if c = escChar then none
      else scan rest (.inCode (c :: acc))

/-- The escape-sequence codes occurring in a string, in order. -/
def extractCodes (s : String) : Option (List String) :=
  scan s.data .text

/-- The SGR codes that the header's shorthands can emit. -/
def allowedCodes : List String := ["1", "31", "32", "33", "34", "0"]

/-- The SGR codes defined in the header's table but used by no shorthand. -/
def forbiddenCodes : List String := ["4", "39", "41", "42", "43", "44", "49"]

/-- Every extracted code is in the allowed set and outside the unused set. -/
def codesAllowed : Option (List String) → Bool
  | none => false
  | some l => l.all fun c => allowedCodes.contains c && !(forbiddenCodes.contains c)

/-- All styled-composition and print operations the header provides. -/
inductive Op where
  | bModRed
  | bModGreen
  | bModYellow
  | bModBlue
  | modRed
  | modGreen
  | modYellow
  | modBlue
  | printBRed
  | printBGreen
  | printBBlue
  | printRed
  | printGreen
  | printBlue
  | printPlain
deriving DecidableEq, Fintype

/-- The output bytes of each provided operation on one payload string. -/
def Op.apply : Op → String → String
  | .bModRed => B_MOD_RED
  | .bModGreen => B_MOD_GREEN
  | .bModYellow => B_MOD_YELLOW
  | .bModBlue => B_MOD_BLUE
  | .modRed => MOD_RED
  | .modGreen => MOD_GREEN
  | .modYellow => MOD_YELLOW
  | .modBlue => MOD_BLUE
  | .printBRed => PRINT_BRED
  | .printBGreen => PRINT_BGREEN
  | .printBBlue => PRINT_BBLUE
  | .printRed => PRINT_RED
  | .printGreen => PRINT_GREEN
  | .printBlue => PRINT_BLUE
  | .printPlain => PRINT

/-! ### Helper lemmas -/

theorem modBoldData : (MOD BOLD).data = [escChar, '[', '1', 'm'] := rfl

theorem modFgRedData : (MOD FGRED).data = [escChar, '[', '3', '1', 'm'] := rfl

theorem modFgGreenData : (MOD FGGREEN).data = [escChar, '[', '3', '2', 'm'] := rfl

theorem modFgYellowData : (MOD FGYELLOW).data = [escChar, '[', '3', '3', 'm'] := rfl

theorem modFgBlueData : (MOD FGBLUE).data = [escChar, '[', '3', '4', 'm'] := rfl

theorem rstData : RST.data = [escChar, '[', '0', 'm'] := rfl

theorem nlData : "\n".data = ['\n'] := rfl

theorem scan_skip (cs : List Char) (h : ∀ c ∈ cs, c ≠ escChar) (rest : List Char) :
    scan (cs ++ rest) Mode.text = scan rest Mode.text := by
  induction cs with
  | nil => rfl
  | cons c cs ih =>
      have hc : c ≠ escChar := h c (List.mem_cons_self c cs)
      simp only [List.cons_append, scan, if_neg hc]
      exact ih fun d hd => h d (List.mem_cons_of_mem c hd)

theorem scan_esc1 (c1 : Char) (h1 : c1 ≠ 'm') (h2 : c1 ≠ escChar) (rest : List Char) :
    scan ([escChar, '[', c1, 'm'] ++ rest) Mode.text
      = (scan rest Mode.text).map fun l => (String.mk [c1]) :: l := by
  simp [scan, h1, h2]

theorem scan_esc2 (c1 c2 : Char) (h1 : c1 ≠ 'm') (h2 : c1 ≠ escChar)
    (h3 : c2 ≠ 'm') (h4 : c2 ≠ escChar) (rest : List Char) :
    scan ([escChar, '[', c1, c2, 'm'] ++ rest) Mode.text
      = (scan rest Mode.text).map fun l => (String.mk [c1, c2]) :: l := by
  simp [scan, h1, h2, h3, h4]

theorem foldl_append_init (ws : List String) (a b : String) :
    ws.foldl (fun o w => o ++ w) (a ++ b) = a ++ ws.foldl (fun o w => o ++ w) b := by
  induction ws generalizing b with
  | nil => rfl
  | cons w ws ih => simp only [List.foldl_cons, String.append_assoc, ih]

/-! ### Claims -/

/-- C1: for every ordered attribute sequence and payload, `styled` equals
the concatenation of `escape(a)` for each attribute in order, then the
payload, then `escape(Reset)`; in particular
`styled([Bold, ForegroundRed], "hi")` is the byte string
`"\x1B[1m\x1B[31mhi\x1B[0m"`, which is exactly the source's
`B_MOD_RED("hi")`; `styled` is a `String`-valued function, so it performs
no write. -/
theorem styled_concat_spec :
    (∀ (attrs : List StyleAttribute) (p : String),
        styled attrs p = String.join (attrs.map escape) ++ p ++ escape .reset) ∧
      styled [.bold, .fgRed] "hi" = "\x1b[1m\x1b[31mhi\x1b[0m" ∧
      styled [.bold, .fgRed] "hi" = B_MOD_RED "hi" := by
  refine ⟨fun attrs p => rfl, by decide, by decide⟩

/-- C2: `escape(a)` equals `ESC ++ "[" ++ code(a) ++ "m"` for every
attribute of the enumerated set, with the fixed code table Bold=1,
Underline=4, foreground 31/32/33/34/39, background 41/42/43/44/49,
Reset=0. -/
theorem escape_table_spec :
    escape .bold = "\x1b[1m" ∧
      escape .underline = "\x1b[4m" ∧
      escape .fgRed = "\x1b[31m" ∧
      escape .fgGreen = "\x1b[32m" ∧
      escape .fgYellow = "\x1b[33m" ∧
      escape .fgBlue = "\x1b[34m" ∧
      escape .fgDefault = "\x1b[39m" ∧
      escape .bgRed = "\x1b[41m" ∧
      escape .bgGreen = "\x1b[42m" ∧
      escape .bgYellow = "\x1b[43m" ∧
      escape .bgBlue = "\x1b[44m" ∧
      escape .bgDefault = "\x1b[49m" ∧
      escape .reset = "\x1b[0m" := by
  decide

/-- C3 counterexample: the header does not define eight color print
shorthands, one per bold/unbolded × {Red, Green, Yellow, Blue}: it defines
six, and none of them is a yellow variant. -/
theorem print_shorthands_not_eight :
    Fintype.card Shorthand ≠ 8 ∧
      (Finset.univ.filter fun s : Shorthand => s.color = Color.yellow).card = 0 := by
  decide

/-- C3 (amended): the header defines six color print shorthands — the
bold × {Red, Green, Blue} and unbolded × {Red, Green, Blue} combinations;
the yellow variants are absent — and each one, applied to a payload,
performs `printLine(styled(fixed_attributes, payload))` with attribute
sequence `[Bold, color]` for the bold variants and `[color]` for the
unbolded ones. -/
theorem print_shorthands_styled :
    (∀ (s : Shorthand) (p : String), s.run p = printLine (styled s.attrSeq p)) ∧
      Fintype.card Shorthand = 6 := by
  refine ⟨fun s p => ?_, by decide⟩
  cases s <;>
    · apply String.ext
      simp [Shorthand.run, Shorthand.attrSeq, printLine, styled, String.join,
        PRINT_BRED, PRINT_BGREEN, PRINT_BBLUE, PRINT_RED, PRINT_GREEN, PRINT_BLUE,
        B_MOD_RED, B_MOD_GREEN, B_MOD_YELLOW, B_MOD_BLUE,
        MOD_RED, MOD_GREEN, MOD_YELLOW, MOD_BLUE,
        escape, code, RST, String.data_append, List.append_assoc]

/-- C4: the bold-red print shorthand applied to `"123"` writes exactly the
bytes `"\x1B[1m\x1B[31m123\x1B[0m\n"` to standard output — the Bold
escape, the Foreground-Red escape, the payload, the Reset escape, the line
terminator, and nothing else. -/
theorem print_bred_123_bytes :
    PRINT_BRED "123" = "\x1b[1m\x1b[31m123\x1b[0m\n" := by
  decide

/-- C5: for every color print shorthand, a fragment-chain invocation
writes the same bytes as a single invocation on the fragments'
left-to-right concatenation; in particular fragments `"789"`, `"258"`
produce the same output as the single payload `"789258"`. -/
theorem frag_invocation_eq_concat :
    (∀ (s : Shorthand) (frags : List String) (out : String),
        s.runFrags frags out = out ++ s.run (concatAll frags)) ∧
      ∀ s : Shorthand, s.runFrags ["789", "258"] "" = s.run "789258" := by
  constructor
  · intro s frags out
    have hfold : ∀ (i : String), frags.foldl (fun o w => o ++ w) i
        = i ++ concatAll frags := by
      intro i
      conv_lhs => rw [(String.append_empty i).symm]
      exact foldl_append_init frags i ""
    cases s <;>
      · simp only [Shorthand.runFrags, Shorthand.escHead, coutAll, Shorthand.run,
          PRINT_BRED, PRINT_BGREEN, PRINT_BBLUE, PRINT_RED, PRINT_GREEN, PRINT_BLUE,
          B_MOD_RED, B_MOD_GREEN, B_MOD_YELLOW, B_MOD_BLUE,
          MOD_RED, MOD_GREEN, MOD_YELLOW, MOD_BLUE,
          List.append_assoc, List.foldl_append, List.foldl_cons, List.foldl_nil,
          hfold]
        apply String.ext
        simp [String.data_append, List.append_assoc]
  · intro s
    cases s <;> rfl

/-- C6: the plain print shorthand (the `PRINT` macro) applied to `"abc"`
writes exactly the bytes `"abc\n"`, with no escape sequences at all. -/
theorem print_plain_abc_bytes : PRINT "abc" = "abc\n" := rfl

/-- C7: `styled` is deterministic and pure: run as a state transformer
over the standard-output stream, two invocations with identical arguments
from arbitrary stream states return byte-identical results, and the stream
is left unchanged. -/
theorem styled_deterministic_pure :
    ∀ (attrs : List StyleAttribute) (p : String) (out out' : String),
      (styledRun attrs p out).2 = (styledRun attrs p out').2 ∧
        ((styledRun attrs p out).2).data = ((styledRun attrs p out').2).data ∧
        (styledRun attrs p out).1 = out :=
  fun _ _ _ _ => ⟨rfl, rfl, rfl⟩

/-- C8: `styled` with the empty attribute sequence and payload `"x"`
yields the payload followed by the Reset escape sequence: the Reset is
appended even with zero attributes. -/
theorem styled_empty_attrs :
    styled [] "x" = "x" ++ escape .reset ∧ styled [] "x" = "x\x1b[0m" := by
  decide

/-- C9: for every payload and every color with a composition macro, the
bold composition is the Bold escape sequence prepended to the unbolded
composition: `B_MOD_c(x) = escape(Bold) ++ MOD_c(x)`. -/
theorem bold_mod_factors :
    ∀ (c : Color) (x : String), bModOf c x = escape .bold ++ modOf c x := by
  intro c x
  cases c <;>
    · apply String.ext
      simp [bModOf, modOf, escape, code,
        B_MOD_RED, B_MOD_GREEN, B_MOD_YELLOW, B_MOD_BLUE,
        MOD_RED, MOD_GREEN, MOD_YELLOW, MOD_BLUE,
        String.data_append, List.append_assoc]

/-- C10: for every payload containing no ESC byte, the output of every
provided styled composition or print shorthand contains only well-formed
escape sequences whose codes lie in {1, 31, 32, 33, 34, 0}; the Underline
(4), Foreground-Default (39) and Background (41–44, 49) codes of the table
are never emitted. -/
theorem shorthand_codes_allowed :
    ∀ (p : String), (∀ c ∈ p.data, c ≠ escChar) →
      ∀ o : Op, codesAllowed (extractCodes (Op.apply o p)) = true := by
  intro p hp o
  cases o
  case bModRed =>
    have h1 : (B_MOD_RED p).data
        = (MOD BOLD).data ++ ((MOD FGRED).data ++ (p.data ++ RST.data)) := by
      simp only [B_MOD_RED, String.data_append, List.append_assoc]
    simp only [Op.apply, extractCodes]
    rw [h1, modBoldData, modFgRedData, rstData,
      scan_esc1 '1' (by decide) (by decide),
      scan_esc2 '3' '1' (by decide) (by decide) (by decide) (by decide),
      scan_skip p.data hp]
    decide
  case bModGreen =>
    have h1 : (B_MOD_GREEN p).data
        = (MOD BOLD).data ++ ((MOD FGGREEN).data ++ (p.data ++ RST.data)) := by
      simp only [B_MOD_GREEN, String.data_append, List.append_assoc]
    simp only [Op.apply, extractCodes]
    rw [h1, modBoldData, modFgGreenData, rstData,
      scan_esc1 '1' (by decide) (by decide),
      scan_esc2 '3' '2' (by decide) (by decide) (by decide) (by decide),
      scan_skip p.data hp]
    decide
  case bModYellow =>
    have h1 : (B_MOD_YELLOW p).data
        = (MOD BOLD).data ++ ((MOD FGYELLOW).data ++ (p.data ++ RST.data)) := by
      simp only [B_MOD_YELLOW, String.data_append, List.append_assoc]
    simp only [Op.apply, extractCodes]
    rw [h1, modBoldData, modFgYellowData, rstData,
      scan_esc1 '1' (by decide) (by decide),
      scan_esc2 '3' '3' (by decide) (by decide) (by decide) (by decide),
      scan_skip p.data hp]
    decide
  case bModBlue =>
    have h1 : (B_MOD_BLUE p).data
        = (MOD BOLD).data ++ ((MOD FGBLUE).data ++ (p.data ++ RST.data)) := by
      simp only [B_MOD_BLUE, String.data_append, List.append_assoc]
    simp only [Op.apply, extractCodes]
    rw [h1, modBoldData, modFgBlueData, rstData,
      scan_esc1 '1' (by decide) (by decide),
      scan_esc2 '3' '4' (by decide) (by decide) (by decide) (by decide),
      scan_skip p.data hp]
    decide
  case modRed =>
    have h1 : (MOD_RED p).data = (MOD FGRED).data ++ (p.data ++ RST.data) := by
      simp only [ MOD_RED, String.data_append, List.append_assoc]
    simp only [Op.apply, extractCodes]
    rw [h1, modFgRedData, rstData,
      scan_esc2 '3' '1' (by decide) (by decide) (by decide) (by decide),
      scan_skip p.data hp]
    decide
  case modGreen =>
    have h1 : (MOD_GREEN p).data = (MOD FGGREEN).data ++ (p.data ++ RST.data) := by
      simp only [ MOD_GREEN, String.data_append, List.append_assoc]
    simp only [Op.apply, extractCodes]
    rw [h1, modFgGreenData, rstData,
      scan_esc2 '3' '2' (by decide) (by decide) (by decide) (by decide),
      scan_skip p.data hp]
    decide
  case modYellow =>
    have h1 : (MOD_YELLOW p).data = (MOD FGYELLOW).data ++ (p.data ++ RST.data) := by
      simp only [ MOD_YELLOW, String.data_append, List.append_assoc]
    simp only [Op.apply, extractCodes]
    rw [h1, modFgYellowData, rstData,
      scan_esc2 '3' '3' (by decide) (by decide) (by decide) (by decide),
      scan_skip p.data hp]
    decide
  case modBlue =>
    have h1 : (MOD_BLUE p).data = (MOD FGBLUE).data ++ (p.data ++ RST.data) := by
      simp only [ MOD_BLUE, String.data_append, List.append_assoc]
    simp only [Op.apply, extractCodes]
    rw [h1, modFgBlueData, rstData,
      scan_esc2 '3' '4' (by decide) (by decide) (by decide) (by decide),
      scan_skip p.data hp]
    decide
  case printBRed =>
    have h1 : (PRINT_BRED p).data
        = (MOD BOLD).data ++ ((MOD FGRED).data ++ (p.data ++ (RST.data ++ "\n".data))) := by
      simp only [PRINT_BRED, B_MOD_RED, String.data_append, List.append_assoc]
    simp only [Op.apply, extractCodes]
    rw [h1, modBoldData, modFgRedData, rstData, nlData,
      scan_esc1 '1' (by decide) (by decide),
      scan_esc2 '3' '1' (by decide) (by decide) (by decide) (by decide),
      scan_skip p.data hp]
    decide
  case printBGreen =>
    have h1 : (PRINT_BGREEN p).data
        = (MOD BOLD).data ++ ((MOD FGGREEN).data ++ (p.data ++ (RST.data ++ "\n".data))) := by
      simp only [PRINT_BGREEN, B_MOD_GREEN, String.data_append, List.append_assoc]
    simp only [Op.apply, extractCodes]
    rw [h1, modBoldData, modFgGreenData, rstData, nlData,
      scan_esc1 '1' (by decide) (by decide),
      scan_esc2 '3' '2' (by decide) (by decide) (by decide) (by decide),
      scan_skip p.data hp]
    decide
  case printBBlue =>
    have h1 : (PRINT_BBLUE p).data
        = (MOD BOLD).data ++ ((MOD FGBLUE).data ++ (p.data ++ (RST.data ++ "\n".data))) := by
      simp only [PRINT_BBLUE, B_MOD_BLUE, String.data_append, List.append_assoc]
    simp only [Op.apply, extractCodes]
    rw [h1, modBoldData, modFgBlueData, rstData, nlData,
      scan_esc1 '1' (by decide) (by decide),
      scan_esc2 '3' '4' (by decide) (by decide) (by decide) (by decide),
      scan_skip p.data hp]
    decide
  case printRed =>
    have h1 : (PRINT_RED p).data
        = (MOD FGRED).data ++ (p.data ++ (RST.data ++ "\n".data)) := by
      simp only [PRINT_RED, MOD_RED, String.data_append, List.append_assoc]
    simp only [Op.apply, extractCodes]
    rw [h1, modFgRedData, rstData, nlData,
      scan_esc2 '3' '1' (by decide) (by decide) (by decide) (by decide),
      scan_skip p.data hp]
    decide
  case printGreen =>
    have h1 : (PRINT_GREEN p).data
        = (MOD FGGREEN).data ++ (p.data ++ (RST.data ++ "\n".data)) := by
      simp only [PRINT_GREEN, MOD_GREEN, String.data_append, List.append_assoc]
    simp only [Op.apply, extractCodes]
    rw [h1, modFgGreenData, rstData, nlData,
      scan_esc2 '3' '2' (by decide) (by decide) (by decide) (by decide),
      scan_skip p.data hp]
    decide
  case printBlue =>
    have h1 : (PRINT_BLUE p).data
        = (MOD FGBLUE).data ++ (p.data ++ (RST.data ++ "\n".data)) := by
      simp only [PRINT_BLUE, MOD_BLUE, String.data_append, List.append_assoc]
    simp only [Op.apply, extractCodes]
    rw [h1, modFgBlueData, rstData, nlData,
      scan_esc2 '3' '4' (by decide) (by decide) (by decide) (by decide),
      scan_skip p.data hp]
    decide
  case printPlain =>
    have h1 : (PRINT p).data = p.data ++ "\n".data := by
      simp only [PRINT, String.data_append]
    simp only [Op.apply, extractCodes]
    rw [h1, nlData, scan_skip p.data hp]
    decide

/-- C10 witness: the bold-red print shorthand on the ESC-free payload
`"hi"` emits only allowed escape codes. -/
theorem shorthand_codes_allowed_witness :
    codesAllowed (extractCodes (Op.apply Op.printBRed "hi")) = true :=
  shorthand_codes_allowed "hi" (by decide) Op.printBRed

end GPD
